import Mathlib

/-
Verification development for the Eyenotes.AuroBi.Design front end.

The repository is an Angular single-page application: a `DataService`
(HTTP client wrapper with error normalization and a connection-health
stream) and a `HomeComponent` (view controller holding UI state, a
retry wrapper around network operations, and a response-text success
heuristic).  This file shallowly embeds the relevant functions:

  - `strIncludes` / `String.toLower`: model JavaScript
    `String.prototype.includes` and `toLowerCase` (ASCII case folding,
    which covers every keyword the code compares against);
  - `isSuccessResponse`: `HomeComponent.isSuccessResponse`;
  - `retryFrom` / `executeWithRetry`: `HomeComponent.executeWithRetry`,
    with the loop turned into structural recursion on the number of
    remaining attempts and the attempt outcomes supplied as an oracle
    `Nat → Except String α` (attempt numbers are 1-based as in the
    source `for (let attempt = 1; attempt <= this.maxRetries; ...)`);
  - `HomeState` and the controller methods `connectToDatabase`,
    `connectToSqlServer`, `connectToPostgres`, `selectTable`,
    `runCustomQuery` plus the promise handlers `connectSuccessHandler`,
    `uploadSuccessHandler`, `connectCatchHandler`: the synchronous
    state updates and the list of HTTP calls they issue;
  - `normalizeError` / `handleError`: `DataService.handleError`,
    with the JavaScript error body modelled by `JsBody` (including
    JavaScript truthiness of `error.error`) and the side effects
    (publish on the health subject, then throw) as an event trace.
-/

/-- One step of substring matching: does `needle` occur at the head of
`hay`?  Models the anchored comparison inside JavaScript
`String.prototype.includes`. -/
def matchesAt : List Char → List Char → Bool
  | [], _ => true
  | _ :: _, [] => false
  | n :: ns, h :: hs => n = h && matchesAt ns hs

/-- Does `needle` occur anywhere in `hay` (as a contiguous run)? -/
def findSub : List Char → List Char → Bool
  | needle, [] => matchesAt needle []
  | needle, h :: hs => matchesAt needle (h :: hs) || findSub needle hs

/-- JavaScript `hay.includes(needle)`. -/
def strIncludes (hay needle : String) : Bool :=
  findSub needle.toList hay.toList

/-- ASCII case folding of one character.  JavaScript `toLowerCase` is
Unicode-aware, but every keyword the code compares against is ASCII,
so ASCII folding models all comparisons the program performs. -/
def charLower (c : Char) : Char :=
  if 65 ≤ c.toNat ∧ c.toNat ≤ 90 then Char.ofNat (c.toNat + 32) else c

/-- JavaScript `message.toLowerCase()` (ASCII range). -/
def jsToLower (s : String) : String :=
  String.mk (s.toList.map charLower)

/-- JavaScript `s.trim()`: strip leading and trailing whitespace. -/
def jsTrim (s : String) : String :=
  String.mk (((s.toList.dropWhile Char.isWhitespace).reverse.dropWhile
    Char.isWhitespace).reverse)

/-- JavaScript `left || right` on an optional string: the left value
when it is truthy (present and non-empty), otherwise the default. -/
def jsOrStr : Option String → String → String
  | some v, d => if v = "" then d else v
  | none, d => d

/-- `successKeywords` from `HomeComponent.isSuccessResponse`. -/
def successKeywords : List String := ["success", "connected", "created", "uploaded"]

/-- `errorKeywords` from `HomeComponent.isSuccessResponse`. -/
def errorKeywords : List String := ["error", "failed", "invalid", "not found"]

/-- `HomeComponent.isSuccessResponse`: lower-case the message, fail on
any error keyword, succeed on any success keyword, otherwise succeed
unless the text contains "error". -/
def isSuccessResponse (message : String) : Bool :=
  let lowerMessage := jsToLower message
  if errorKeywords.any (fun keyword => strIncludes lowerMessage keyword) then
    false
  else if successKeywords.any (fun keyword => strIncludes lowerMessage keyword) then
    true
  else
    !(strIncludes lowerMessage "error")

/-- Observable outcome of one run of `executeWithRetry`: the value
returned or error thrown, the `setTimeout` delays in milliseconds,
the errors passed to `console.error`, and how many times the wrapped
operation was invoked. -/
structure RetryTrace (α : Type) where
  result : Except String α
  delays : List Nat
  logged : List String
  attempts : Nat
  deriving Repr

/-- The loop body of `HomeComponent.executeWithRetry`, by recursion on
the number of attempts still allowed (`fuel = maxRetries - attempt + 1`,
so the source guard `attempt === this.maxRetries` is `fuel = 0` after
peeling one attempt).  On failure with attempts remaining it waits
`Math.pow(2, attempt) * 1000` milliseconds; the fuel-exhausted case is
the unreachable trailing `throw new Error('All retry attempts failed')`. -/
def retryFrom (outcomes : Nat → Except String α) : Nat → Nat → RetryTrace α
  | _, 0 => ⟨Except.error "All retry attempts failed", [], [], 0⟩
  | attempt, fuel + 1 =>
    match outcomes attempt with
    | Except.ok v => ⟨Except.ok v, [], [], 1⟩
    | Except.error e =>
      if fuel = 0 then
        ⟨Except.error e, [], [e], 1⟩
      else
        let rest := retryFrom outcomes (attempt + 1) fuel
        ⟨rest.result, 2 ^ attempt * 1000 :: rest.delays, e :: rest.logged, rest.attempts + 1⟩

/-- `HomeComponent.maxRetries`. -/
def maxRetries : Nat := 3

/-- `HomeComponent.executeWithRetry`: attempts start at 1 and at most
`maxRetries` are made. -/
def executeWithRetry (outcomes : Nat → Except String α) : RetryTrace α :=
  retryFrom outcomes 1 maxRetries

/-- The unified credential form of `HomeComponent` (`databaseForm`):
host, port, username, password, database. -/
structure DatabaseForm where
  host : String
  port : Int
  username : String
  password : String
  database : String
  deriving Repr, DecidableEq

/-- Validity of `databaseForm` under its declared validators:
`Validators.required` on every control (empty string fails) and
`Validators.min(1)` / `Validators.max(65535)` on the port. -/
def DatabaseForm.valid (f : DatabaseForm) : Bool :=
  f.host ≠ "" && (1 ≤ f.port && f.port ≤ 65535) &&
    f.username ≠ "" && f.password ≠ "" && f.database ≠ ""

/-- `TableColumn` from `data.service.ts`. -/
structure TableColumn where
  column_name : String
  data_type : String
  character_maximum_length : Option Int
  is_nullable : String
  deriving Repr, DecidableEq

/-- An untyped row object (`any`), modelled as a key/value list. -/
abbrev DataRow := List (String × String)

/-- One HTTP request issued through `DataService`. -/
inductive ApiCall where
  | connectSqlServer (credentials : DatabaseForm)
  | connectPostgres (credentials : DatabaseForm)
  | uploadExcel (fileName : String)
  | getTables
  | getColumns (table : String)
  | getData (table : String)
  | runQuery (query : String)
  | healthCheck
  deriving Repr, DecidableEq

/-- Is the call a columns fetch (`GET /MetaData/columns/{table}`)? -/
def isColumnsFetch : ApiCall → Bool
  | ApiCall.getColumns _ => true
  | _ => false

/-- Is the call a row-data fetch (`GET /MetaData/data/{table}`)? -/
def isDataFetch : ApiCall → Bool
  | ApiCall.getData _ => true
  | _ => false

/-- Is the call a table-list fetch (`GET /MetaData/tables`)? -/
def isTablesFetch : ApiCall → Bool
  | ApiCall.getTables => true
  | _ => false

/-- The mutable fields of `HomeComponent` (the unified-form revision,
which declares `connectToDatabase` and the legacy wrappers). -/
structure HomeState where
  activeTab : String
  connectionStatus : String
  isConnected : Bool
  isLoading : Bool
  showConnectionModal : Bool
  connectionTab : String
  mobileSidebarOpen : Bool
  selectedDatabaseType : String
  databaseForm : DatabaseForm
  showPassword : Bool
  connectionTestResult : String
  connectionTestSuccess : Bool
  selectedFile : Option String
  tables : List String
  selectedTable : String
  columns : List TableColumn
  tableData : List DataRow
  customQuery : String
  queryResults : List DataRow
  deriving Repr, DecidableEq

/-- The component's field initializers. -/
def initialHomeState : HomeState where
  activeTab := "dashboard"
  connectionStatus := ""
  isConnected := false
  isLoading := false
  showConnectionModal := false
  connectionTab := "database"
  mobileSidebarOpen := false
  selectedDatabaseType := "sqlserver"
  databaseForm := { host := "", port := 1433, username := "", password := "", database := "" }
  showPassword := false
  connectionTestResult := ""
  connectionTestSuccess := false
  selectedFile := none
  tables := []
  selectedTable := ""
  columns := []
  tableData := []
  customQuery := ""
  queryResults := []

/-- Synchronous part of `HomeComponent.connectToDatabase`: guarded by
`databaseForm.valid`; sets `isLoading` and issues the connect request
for the selected database type.  The asynchronous continuations are
`connectSuccessHandler` / `connectCatchHandler` below. -/
def connectToDatabase (s : HomeState) : HomeState × List ApiCall :=
  if s.databaseForm.valid then
    ({ s with isLoading := true },
      [if s.selectedDatabaseType = "sqlserver" then
          ApiCall.connectSqlServer s.databaseForm
        else
          ApiCall.connectPostgres s.databaseForm])
  else
    (s, [])

/-- Legacy `HomeComponent.connectToSqlServer`: sets
`selectedDatabaseType` and delegates to `connectToDatabase`. -/
def connectToSqlServer (s : HomeState) : HomeState × List ApiCall :=
  connectToDatabase { s with selectedDatabaseType := "sqlserver" }

/-- Legacy `HomeComponent.connectToPostgres`: sets
`selectedDatabaseType` and delegates to `connectToDatabase`. -/
def connectToPostgres (s : HomeState) : HomeState × List ApiCall :=
  connectToDatabase { s with selectedDatabaseType := "postgresql" }

/-- The `.then` handler of `connectToDatabase` (also the success arm of
`connectToSqlServer`/`connectToPostgres` in every revision): take
`response || 'Connected successfully'` as the status, classify it, and
on success run `loadTables()` (sets `isLoading`, issues the table-list
request) and `closeConnectionModal()` (clears the modal flags). -/
def connectSuccessHandler (s : HomeState) (response : Option String) :
    HomeState × List ApiCall :=
  let status := jsOrStr response "Connected successfully"
  let connected := isSuccessResponse status
  let s1 := { s with connectionStatus := status, isConnected := connected, isLoading := false }
  if connected then
    ({ s1 with isLoading := true, showConnectionModal := false,
               connectionTestResult := "", showPassword := false },
      [ApiCall.getTables])
  else
    (s1, [])

/-- The `.then` handler of `uploadExcel`: same shape as the connect
handler with default status `'Excel uploaded successfully'`, and it
also clears `selectedFile`. -/
def uploadSuccessHandler (s : HomeState) (response : Option String) :
    HomeState × List ApiCall :=
  let status := jsOrStr response "Excel uploaded successfully"
  let connected := isSuccessResponse status
  let s1 := { s with connectionStatus := status, isConnected := connected,
                     isLoading := false, selectedFile := none }
  if connected then
    ({ s1 with isLoading := true, showConnectionModal := false,
               connectionTestResult := "", showPassword := false },
      [ApiCall.getTables])
  else
    (s1, [])

/-- The `.catch` handler of `connectToDatabase`: record the error
message, drop the connection flag, reset the loading flag. -/
def connectCatchHandler (s : HomeState) (errMessage : String) : HomeState :=
  { s with connectionStatus := "Error: " ++ errMessage,
           isConnected := false, isLoading := false }

/-- `HomeComponent.selectTable` followed by `onTableSelected`: store
the name; when it is truthy (non-empty) run `loadTableColumns()` and
`loadTableData()`, whose synchronous part issues one columns request
and one row-data request for the selected table. -/
def selectTable (s : HomeState) (tableName : String) : HomeState × List ApiCall :=
  let s1 := { s with selectedTable := tableName }
  if s1.selectedTable ≠ "" then
    (s1, [ApiCall.getColumns s1.selectedTable, ApiCall.getData s1.selectedTable])
  else
    (s1, [])

/-- Synchronous part of `HomeComponent.runCustomQuery`: guarded by the
truthiness of `customQuery.trim()`; sets `isLoading` and issues the
query with the user-typed string unmodified. -/
def runCustomQuery (s : HomeState) : HomeState × List ApiCall :=
  if jsTrim s.customQuery ≠ "" then
    ({ s with isLoading := true }, [ApiCall.runQuery s.customQuery])
  else
    (s, [])

/-- The JavaScript value held in `HttpErrorResponse.error`: absent
(`null`/`undefined`), a plain string body, an object body whose
`message` field may be absent, or a client-side `ErrorEvent`. -/
inductive JsBody where
  | jsNull
  | jsStr (s : String)
  | jsObj (message : Option String)
  | jsEvent (message : String)
  deriving Repr, DecidableEq

/-- JavaScript truthiness of `error.error`: `null`/`undefined` and the
empty string are falsy; every object is truthy. -/
def JsBody.truthy : JsBody → Bool
  | JsBody.jsNull => false
  | JsBody.jsStr s => s ≠ ""
  | JsBody.jsObj _ => true
  | JsBody.jsEvent _ => true

/-- The fields of Angular's `HttpErrorResponse` that
`DataService.handleError` inspects. -/
structure HttpErrorResponse where
  status : Nat
  message : String
  error : JsBody
  deriving Repr, DecidableEq

/-- The message computation of `DataService.handleError`: client-side
`ErrorEvent` first, then status 0, status ≥ 500, status 404, then a
truthy body (string body itself, or `error.error.message ||
error.message` for an object), else the generic fallback. -/
def normalizeError (e : HttpErrorResponse) : String :=
  match e.error with
  | JsBody.jsEvent m => "Client Error: " ++ m
  | body =>
    if e.status = 0 then
      "Unable to connect to server. Please check your connection."
    else if 500 ≤ e.status then
      "Server error. Please try again later."
    else if e.status = 404 then
      "Service not found. Please check the API endpoint."
    else if body.truthy then
      match body with
      | JsBody.jsStr s => s
      | JsBody.jsObj m => jsOrStr m e.message
      | _ => e.message
    else
      "Server Error (" ++ toString e.status ++ "): " ++ e.message

/-- An observable side effect of `DataService.handleError`: a value
published on `connectionHealthSubject`, or an error thrown to the
subscriber. -/
inductive ErrEvent where
  | publishHealth (isHealthy : Bool)
  | throwMsg (message : String)
  deriving Repr, DecidableEq

/-- `DataService.handleError` as an event trace: compute the message,
publish `false` on the health subject, then throw. -/
def handleError (e : HttpErrorResponse) : List ErrEvent :=
  let errorMessage := normalizeError e
  [ErrEvent.publishHealth false, ErrEvent.throwMsg errorMessage]

/-- The `DataService` operations that wrap an HTTP request. -/
inductive ServiceOp where
  | connectSqlServer
  | connectPostgres
  | uploadExcel
  | downloadTemplate
  | getTables
  | getColumns
  | getData
  | runQuery
  deriving Repr, DecidableEq

/-- The error path of each `DataService` operation: every method pipes
`catchError(this.handleError)`, so a failed response reaches
`handleError` in every case. -/
def serviceErrorTrace : ServiceOp → HttpErrorResponse → List ErrEvent
  | ServiceOp.connectSqlServer, e => handleError e
  | ServiceOp.connectPostgres, e => handleError e
  | ServiceOp.uploadExcel, e => handleError e
  | ServiceOp.downloadTemplate, e => handleError e
  | ServiceOp.getTables, e => handleError e
  | ServiceOp.getColumns, e => handleError e
  | ServiceOp.getData, e => handleError e
  | ServiceOp.runQuery, e => handleError e

/-- A state with the table list already populated, used for claim C3. -/
def populatedTablesState : HomeState :=
  { initialHomeState with tables := ["Patients"], showConnectionModal := true }

/-- A state whose form is invalid (all text controls empty) and whose
selected database type is PostgreSQL, used for claim C10. -/
def postgresSelectedState : HomeState :=
  { initialHomeState with selectedDatabaseType := "postgresql" }

/-- C1 (counterexample): with an operation failing on every attempt,
`executeWithRetry` makes 3 attempts but waits 2000 ms then 4000 ms
between them (`Math.pow(2, attempt) * 1000` with 1-based attempts),
not the 1 s then 2 s the claim states. -/
theorem c1_backoff_counterexample :
    (executeWithRetry (fun _ => (Except.error "connection refused" : Except String Unit))).attempts = 3
    ∧ (executeWithRetry (fun _ => (Except.error "connection refused" : Except String Unit))).delays = [2000, 4000]
    ∧ (executeWithRetry (fun _ => (Except.error "connection refused" : Except String Unit))).delays ≠ [1000, 2000] := by
  refine ⟨rfl, rfl, by decide⟩

/-- C1 (amended): for every operation that fails on every attempt,
`executeWithRetry` makes exactly 3 attempts, waits 2 s after the first
failure and 4 s after the second, logs every failure, and surfaces the
final attempt's error. -/
theorem c1_retry_three_attempts_backoff (α : Type) (errs : Nat → String) :
    executeWithRetry (fun i => (Except.error (errs i) : Except String α)) =
      ⟨Except.error (errs 3), [2000, 4000], [errs 1, errs 2, errs 3], 3⟩ := rfl

/-- C2: any response text containing (case-insensitively) an error
keyword is classified as failure by `isSuccessResponse`, regardless of
what else the text contains — the error-keyword check runs first. -/
theorem c2_error_keyword_short_circuits (msg : String)
    (h : errorKeywords.any (fun keyword => strIncludes (jsToLower msg) keyword) = true) :
    isSuccessResponse msg = false := by
  simp [isSuccessResponse, h]

/-- C2 witness: `"uploaded but error parsing row 4"` contains both a
success and an error keyword and is classified as failure. -/
theorem c2_error_keyword_short_circuits_witness :
    errorKeywords.any (fun keyword => strIncludes (jsToLower "uploaded but error parsing row 4") keyword) = true
    ∧ isSuccessResponse "uploaded but error parsing row 4" = false :=
  ⟨by decide, c2_error_keyword_short_circuits "uploaded but error parsing row 4" (by decide)⟩

/-- C3 (counterexample): with the table list already populated, a
successful connect response still issues a table-list fetch — the
connect success handler never skips `loadTables()`; the
skip-if-populated check exists only in `setActiveTab`. -/
theorem c3_no_skip_counterexample :
    populatedTablesState.tables ≠ []
    ∧ (connectSuccessHandler populatedTablesState (some "Connected successfully")).2.countP isTablesFetch = 1 := by
  refine ⟨by decide, by decide⟩

/-- C3 (amended): when a connect or upload response is classified as
success, the handler issues exactly one table-list fetch —
unconditionally, even if the table list is already populated — and
closes any open connection modal. -/
theorem c3_success_loads_tables_once (s : HomeState) (response : Option String)
    (h1 : isSuccessResponse (jsOrStr response "Connected successfully") = true)
    (h2 : isSuccessResponse (jsOrStr response "Excel uploaded successfully") = true) :
    ((connectSuccessHandler s response).2.countP isTablesFetch = 1
      ∧ (connectSuccessHandler s response).1.showConnectionModal = false)
    ∧ ((uploadSuccessHandler s response).2.countP isTablesFetch = 1
      ∧ (uploadSuccessHandler s response).1.showConnectionModal = false) := by
  simp [connectSuccessHandler, uploadSuccessHandler, h1, h2,
    List.countP_cons, List.countP_nil, isTablesFetch]

/-- C3 witness: a successful connect on the populated-tables state
fetches the table list once and closes the modal. -/
theorem c3_success_loads_tables_once_witness :
    ((connectSuccessHandler populatedTablesState (some "Connected successfully")).2.countP isTablesFetch = 1
      ∧ (connectSuccessHandler populatedTablesState (some "Connected successfully")).1.showConnectionModal = false)
    ∧ ((uploadSuccessHandler populatedTablesState (some "Connected successfully")).2.countP isTablesFetch = 1
      ∧ (uploadSuccessHandler populatedTablesState (some "Connected successfully")).1.showConnectionModal = false) :=
  c3_success_loads_tables_once populatedTablesState (some "Connected successfully")
    (by decide) (by decide)

/-- C4 (counterexample): `selectTable` with the empty string stores it
and, because the empty string is falsy, `onTableSelected` issues no
fetch at all — not one of each as the claim states for every name. -/
theorem c4_empty_name_counterexample :
    (selectTable initialHomeState "").2.countP isColumnsFetch ≠ 1
    ∧ (selectTable initialHomeState "").2.countP isDataFetch ≠ 1 := by
  refine ⟨by decide, by decide⟩

/-- C4 (amended): for every non-empty table name, `selectTable`
triggers exactly one columns fetch and exactly one row-data fetch. -/
theorem c4_select_fetches_once (s : HomeState) (tableName : String)
    (h : tableName ≠ "") :
    (selectTable s tableName).2.countP isColumnsFetch = 1
    ∧ (selectTable s tableName).2.countP isDataFetch = 1 := by
  simp [selectTable, h, List.countP_cons, List.countP_nil, isColumnsFetch, isDataFetch]

/-- C4 witness: selecting `"Patients"` fetches columns once and row
data once. -/
theorem c4_select_fetches_once_witness :
    ("Patients" : String) ≠ ""
    ∧ ((selectTable initialHomeState "Patients").2.countP isColumnsFetch = 1
      ∧ (selectTable initialHomeState "Patients").2.countP isDataFetch = 1) :=
  ⟨by decide, c4_select_fetches_once initialHomeState "Patients" (by decide)⟩

/-- C5: when the query text trims to the empty string,
`runCustomQuery` issues no call and returns the state unchanged. -/
theorem c5_blank_query_noop (s : HomeState) (h : jsTrim s.customQuery = "") :
    runCustomQuery s = (s, []) := by
  simp [runCustomQuery, h]

/-- C5 witness: a whitespace-only query is a complete no-op. -/
theorem c5_blank_query_noop_witness :
    jsTrim ({ initialHomeState with customQuery := "   " } : HomeState).customQuery = ""
    ∧ runCustomQuery { initialHomeState with customQuery := "   " } =
        ({ initialHomeState with customQuery := "   " }, []) :=
  ⟨by decide, c5_blank_query_noop { initialHomeState with customQuery := "   " } (by decide)⟩

/-- C6: for every failed HTTP response that is not a client-side
`ErrorEvent`, `normalizeError` maps status 0 to the generic
cannot-connect message, status ≥ 500 to the generic server-error
message, status 404 to the specific service-not-found message, and any
other status with a body to the body-provided text (the string body
itself, or the object body's `message` field). -/
theorem c6_error_normalization (e : HttpErrorResponse)
    (hev : ∀ m, e.error ≠ JsBody.jsEvent m) :
    (e.status = 0 → normalizeError e = "Unable to connect to server. Please check your connection.")
    ∧ (500 ≤ e.status → normalizeError e = "Server error. Please try again later.")
    ∧ (e.status = 404 → normalizeError e = "Service not found. Please check the API endpoint.")
    ∧ (∀ s, e.status ≠ 0 → e.status < 500 → e.status ≠ 404 →
        e.error = JsBody.jsStr s → s ≠ "" → normalizeError e = s)
    ∧ (∀ m, e.status ≠ 0 → e.status < 500 → e.status ≠ 404 →
        e.error = JsBody.jsObj (some m) → m ≠ "" → normalizeError e = m) := by
  obtain ⟨status, message, body⟩ := e
  dsimp only at hev ⊢
  refine ⟨?_, ?_, ?_, ?_, ?_⟩
  · intro h0
    cases body with
    | jsEvent m => exact absurd rfl (hev m)
    | jsNull => simp [normalizeError, h0]
    | jsStr s => simp [normalizeError, h0]
    | jsObj m => simp [normalizeError, h0]
  · intro h500
    have h0 : status ≠ 0 := by omega
    cases body with
    | jsEvent m => exact absurd rfl (hev m)
    | jsNull => simp [normalizeError, h0, h500]
    | jsStr s => simp [normalizeError, h0, h500]
    | jsObj m => simp [normalizeError, h0, h500]
  · intro h404
    subst h404
    cases body with
    | jsEvent m => exact absurd rfl (hev m)
    | jsNull => simp [normalizeError]
    | jsStr s => simp [normalizeError]
    | jsObj m => simp [normalizeError]
  · intro s h0 h5 h4 hb hs
    subst hb
    have h5a : ¬ (500 ≤ status) := by omega
    simp [normalizeError, h0, h5a, h4, JsBody.truthy, hs]
  · intro m h0 h5 h4 hb hm
    subst hb
    have h5a : ¬ (500 ≤ status) := by omega
    simp [normalizeError, h0, h5a, h4, JsBody.truthy, jsOrStr, hm]

/-- C6 witness: one concrete response per branch of the
normalization. -/
theorem c6_error_normalization_witness :
    normalizeError ⟨0, "Http failure response", JsBody.jsNull⟩ =
      "Unable to connect to server. Please check your connection."
    ∧ normalizeError ⟨503, "Http failure response", JsBody.jsNull⟩ =
      "Server error. Please try again later."
    ∧ normalizeError ⟨404, "Http failure response", JsBody.jsNull⟩ =
      "Service not found. Please check the API endpoint."
    ∧ normalizeError ⟨400, "Http failure response", JsBody.jsStr "Invalid credentials"⟩ =
      "Invalid credentials"
    ∧ normalizeError ⟨400, "Http failure response", JsBody.jsObj (some "Login failed for user")⟩ =
      "Login failed for user" := by
  refine ⟨(c6_error_normalization ⟨0, "Http failure response", JsBody.jsNull⟩
      (fun m h => JsBody.noConfusion h)).1 rfl,
    (c6_error_normalization ⟨503, "Http failure response", JsBody.jsNull⟩
      (fun m h => JsBody.noConfusion h)).2.1 (by decide),
    (c6_error_normalization ⟨404, "Http failure response", JsBody.jsNull⟩
      (fun m h => JsBody.noConfusion h)).2.2.1 rfl,
    (c6_error_normalization ⟨400, "Http failure response", JsBody.jsStr "Invalid credentials"⟩
      (fun m h => JsBody.noConfusion h)).2.2.2.1 "Invalid credentials"
      (by decide) (by decide) (by decide) rfl (by decide),
    (c6_error_normalization ⟨400, "Http failure response", JsBody.jsObj (some "Login failed for user")⟩
      (fun m h => JsBody.noConfusion h)).2.2.2.2 "Login failed for user"
      (by decide) (by decide) (by decide) rfl (by decide)⟩

/-- C7: when every attempt of a retried operation fails, the error
surfaced to the caller is exactly the final (3rd) attempt's error, the
earlier errors appear only in the log, and the connect catch handler
resets the loading flag while recording the surfaced message. -/
theorem c7_final_error_surfaced (α : Type) (errs : Nat → String) (s : HomeState) :
    (executeWithRetry (fun i => (Except.error (errs i) : Except String α))).result =
      Except.error (errs 3)
    ∧ (executeWithRetry (fun i => (Except.error (errs i) : Except String α))).logged =
      [errs 1, errs 2, errs 3]
    ∧ (connectCatchHandler s (errs 3)).isLoading = false
    ∧ (connectCatchHandler s (errs 3)).connectionStatus = "Error: " ++ errs 3 :=
  ⟨rfl, rfl, rfl, rfl⟩

/-- C8: a response text containing (case-insensitively) no error
keyword, no success keyword, and no substring "error" is classified as
success. -/
theorem c8_default_success (msg : String)
    (h1 : errorKeywords.any (fun keyword => strIncludes (jsToLower msg) keyword) = false)
    (h2 : successKeywords.any (fun keyword => strIncludes (jsToLower msg) keyword) = false)
    (h3 : strIncludes (jsToLower msg) "error" = false) :
    isSuccessResponse msg = true := by
  simp [isSuccessResponse, h1, h2, h3]

/-- C8 witness: `"Rows returned: 12"` matches no keyword and is
classified as success. -/
theorem c8_default_success_witness :
    errorKeywords.any (fun keyword => strIncludes (jsToLower "Rows returned: 12") keyword) = false
    ∧ successKeywords.any (fun keyword => strIncludes (jsToLower "Rows returned: 12") keyword) = false
    ∧ strIncludes (jsToLower "Rows returned: 12") "error" = false
    ∧ isSuccessResponse "Rows returned: 12" = true :=
  ⟨by decide, by decide, by decide,
    c8_default_success "Rows returned: 12" (by decide) (by decide) (by decide)⟩

/-- C9: every `DataService` operation pipes its failures through
`handleError`, which publishes `false` on the connection-health stream
and then throws the normalized error — so any single API failure marks
the connection unhealthy before the caller sees the error. -/
theorem c9_error_marks_unhealthy (op : ServiceOp) (e : HttpErrorResponse) :
    serviceErrorTrace op e =
      [ErrEvent.publishHealth false, ErrEvent.throwMsg (normalizeError e)] := by
  cases op <;> rfl

/-- C10 (counterexample): with an invalid form, the legacy
`connectToSqlServer` wrapper issues no request but still mutates
`selectedDatabaseType` before the validity check, so it is not a
complete no-op. -/
theorem c10_not_noop_counterexample :
    postgresSelectedState.databaseForm.valid = false
    ∧ (connectToSqlServer postgresSelectedState).2 = []
    ∧ (connectToSqlServer postgresSelectedState).1 ≠ postgresSelectedState := by
  refine ⟨by decide, by decide, by decide⟩

/-- C10 (amended): with an invalid form, `connectToDatabase` is a
complete no-op, and the legacy wrappers issue no request and change
nothing except `selectedDatabaseType`. -/
theorem c10_invalid_form_no_request (s : HomeState)
    (h : s.databaseForm.valid = false) :
    connectToDatabase s = (s, [])
    ∧ connectToSqlServer s = ({ s with selectedDatabaseType := "sqlserver" }, [])
    ∧ connectToPostgres s = ({ s with selectedDatabaseType := "postgresql" }, []) := by
  refine ⟨?_, ?_, ?_⟩ <;>
    simp [connectToDatabase, connectToSqlServer, connectToPostgres, h]

/-- C10 witness: the invalid-form state with PostgreSQL selected. -/
theorem c10_invalid_form_no_request_witness :
    connectToDatabase postgresSelectedState = (postgresSelectedState, [])
    ∧ connectToSqlServer postgresSelectedState =
        ({ postgresSelectedState with selectedDatabaseType := "sqlserver" }, [])
    ∧ connectToPostgres postgresSelectedState =
        ({ postgresSelectedState with selectedDatabaseType := "postgresql" }, []) :=
  c10_invalid_form_no_request postgresSelectedState (by decide)
